/-
Verification of the orlop gRPC client bootstrap (`Connect` / `ConnectContext`)
against its specification.

The Go source assembles an ordered list of `grpc.DialOption`s from a client
configuration, then dials.  We embed this shallowly:

* `ClientConfig` mirrors the configuration surface read by `ConnectContext`
  (URL, TLS settings, shared-token triple, tuning fields, block flag,
  connect timeout, user-agent override).
* A dial option becomes a constructor of `DialOption`; the per-RPC
  credential value is defunctionalised as `Cred` (the Go closure captures
  only the shared key config and the vault, so the tag plus that data is
  the full content; the closure's behaviour is `SharedContextCredentials.tokenProvider`).
* External collaborators are parameters: the transport-security resolver
  `NewClientTLSConfig` and the secret lookup `LoadKey` are passed in as
  functions.  `ConnectContext` additionally returns the list of arguments
  the resolver was invoked with, so "invoked exactly once" is a statement
  about that list.
* Contexts are embedded by their cancellation content only (`Ctx`):
  span attachment by `tracer.Start` does not alter deadlines and is
  out of scope, so it is modelled as the identity on the context.
* The dial itself is external: a successful bootstrap returns the
  `DialRequest` (context, target, options) handed to `grpc.DialContext`,
  and an error result means no dial is attempted and no channel returned.
-/
import Mathlib

set_option maxHeartbeats 1000000
set_option maxRecDepth 4000

/-- Go `context.Context`, embedded by its cancellation content:
`background`, or a context with a timeout applied (`context.WithTimeout`). -/
inductive Ctx where
  | background : Ctx
  | withTimeout : Ctx → Int → Ctx
deriving DecidableEq, Repr

/-- TLS configuration (`cfg.GetTLS()`): the enabled flag read by
`ConnectContext`, plus the remaining settings, opaque to this code and
only forwarded to the resolver. -/
structure TLSConfig where
  enabled : Bool
  settings : String
deriving DecidableEq, Repr

/-- Vault configuration (`HasVaultConfig`): opaque to `ConnectContext`,
only forwarded to collaborators. -/
structure VaultConfig where
  enabled : Bool
  address : String
deriving DecidableEq, Repr

/-- Shared-token key configuration (`cfg.GetToken().GetShared()`):
the id / file / inline-secret triple. -/
structure KeyConfig where
  id : String
  file : String
  secret : String
deriving DecidableEq, Repr

/-- Token configuration (`cfg.GetToken()`). -/
structure TokenConfig where
  shared : KeyConfig
deriving DecidableEq, Repr

/-- The configuration surface consumed by `ConnectContext`
(`HasClientConfig`), one field per getter. Go `int`/`int32` tuning fields
and `time.Duration` timeouts are embedded as `Int`. -/
structure ClientConfig where
  url : String
  tls : TLSConfig
  token : TokenConfig
  writeBufferSize : Int
  readBufferSize : Int
  initialWindowSize : Int
  initialConnWindowSize : Int
  maxCallRecvMsgSize : Int
  maxCallSendMsgSize : Int
  minConnectTimeout : Int
  block : Bool
  connTimeout : Int
  userAgent : String
deriving DecidableEq, Repr

/-- Transport-security material produced by the resolver
(`*tls.Config` in Go): opaque to this code. -/
structure TLSMaterial where
  desc : String
deriving DecidableEq, Repr

/-- Per-RPC credential values attached by `ConnectContext`:
`SharedContextCredentials` (carrying the captured shared key config)
or `ContextCredentials`. -/
inductive Cred where
  | SharedContextCredentials (shared : KeyConfig)
  | ContextCredentials
deriving DecidableEq, Repr

/-- One `grpc.DialOption`, one constructor per option the source appends. -/
inductive DialOption where
  | unaryInterceptor
  | streamInterceptor
  | transportCredentials (t : TLSMaterial)
  | insecure
  | perRPCCredentials (c : Cred)
  | writeBufferSize (n : Int)
  | readBufferSize (n : Int)
  | initialWindowSize (n : Int)
  | initialConnWindowSize (n : Int)
  | maxCallRecvMsgSize (n : Int)
  | maxCallSendMsgSize (n : Int)
  | minConnectTimeout (d : Int)
  | block
  | userAgent (ua : String)
deriving DecidableEq, Repr

/-- Errors returned by the bootstrap: a plain error (`errors.New`) or a
wrapped one (`errors.Wrap(err, msg)`); the wrapped cause is its message. -/
inductive Err where
  | config (msg : String)
  | wrap (msg : String) (cause : String)
deriving DecidableEq, Repr

/-- The dial performed on success: the argument list handed to
`grpc.DialContext(ctx, target, opts...)`. An `Err` result instead of a
`DialRequest` means no dial is attempted. -/
structure DialRequest where
  ctx : Ctx
  target : String
  opts : List DialOption
deriving DecidableEq, Repr

/-- Generated constant `version.Name` from `version_gen.go`. -/
def version.Name : String := "orlop"

/-- Generated constant `version.Version` from `version_gen.go`. -/
def version.Version : String := "0.0.0"

/-- The transport-security resolver `NewClientTLSConfig(ctx, tls, vault)`:
external collaborator, passed as a function (the context is modelled as
not affecting it). -/
def Resolver : Type := TLSConfig → VaultConfig → Except String TLSMaterial

/-- `ConnectContext(ctx, cfg, vault)` from the source, line by line.
Returns the bootstrap result — error, or the dial request handed to
`grpc.DialContext` — paired with the list of arguments
`NewClientTLSConfig` was invoked with. -/
def ConnectContext (ctx : Ctx) (cfg : ClientConfig) (vault : VaultConfig)
    (newClientTLSConfig : Resolver) :
    Except Err DialRequest × List TLSConfig :=
  if cfg.url.length == 0 then
    (Except.error (Err.config "client: url required"), [])
  else
    let opts : List DialOption := []
    let opts := opts ++ [DialOption.unaryInterceptor]
    let opts := opts ++ [DialOption.streamInterceptor]
    let sec : Except Err (List DialOption) × List TLSConfig :=
      if cfg.tls.enabled then
        match newClientTLSConfig cfg.tls vault with
        | Except.error e =>
            (Except.error (Err.wrap "client: failed to get client TLS config" e), [cfg.tls])
        | Except.ok t =>
            (Except.ok [DialOption.transportCredentials t], [cfg.tls])
      else
        (Except.ok [DialOption.insecure], [])
    match sec with
    | (Except.error e, calls) => (Except.error e, calls)
    | (Except.ok secOpts, calls) =>
        let opts := opts ++ secOpts
        let shared := cfg.token.shared
        let opts := opts ++
          (if 0 < shared.id.length ∨ 0 < shared.file.length ∨ 0 < shared.secret.length then
            [DialOption.perRPCCredentials (Cred.SharedContextCredentials shared)]
          else
            [DialOption.perRPCCredentials Cred.ContextCredentials])
        let opts := opts ++
          (if 0 < cfg.writeBufferSize then [DialOption.writeBufferSize cfg.writeBufferSize] else [])
        let opts := opts ++
          (if 0 < cfg.readBufferSize then [DialOption.readBufferSize cfg.readBufferSize] else [])
        let opts := opts ++
          (if 0 < cfg.initialWindowSize then [DialOption.initialWindowSize cfg.initialWindowSize] else [])
        let opts := opts ++
          (if 0 < cfg.initialConnWindowSize then [DialOption.initialConnWindowSize cfg.initialConnWindowSize] else [])
        let opts := opts ++
          (if 0 < cfg.maxCallRecvMsgSize then [DialOption.maxCallRecvMsgSize cfg.maxCallRecvMsgSize] else [])
        let opts := opts ++
          (if 0 < cfg.maxCallSendMsgSize then [DialOption.maxCallSendMsgSize cfg.maxCallSendMsgSize] else [])
        let opts := opts ++
          (if 0 < cfg.minConnectTimeout then [DialOption.minConnectTimeout cfg.minConnectTimeout] else [])
        let opts := opts ++ (if cfg.block then [DialOption.block] else [])
        let ctx := if 0 < cfg.connTimeout then Ctx.withTimeout ctx cfg.connTimeout else ctx
        let ua := if 0 < cfg.userAgent.length then cfg.userAgent
                  else version.Name ++ "/" ++ version.Version
        let opts := opts ++ [DialOption.userAgent ua]
        (Except.ok (DialRequest.mk ctx cfg.url opts), calls)

/-- `Connect(cfg, vault)` from the source: `ConnectContext` on a fresh
background context. -/
def Connect (cfg : ClientConfig) (vault : VaultConfig)
    (newClientTLSConfig : Resolver) :
    Except Err DialRequest × List TLSConfig :=
  ConnectContext Ctx.background cfg vault newClientTLSConfig

/-- The token-fetch closure installed in `SharedContextCredentials` by
`ConnectContext` (source lines 71–83).  `LoadKey` is the secret-store
collaborator, passed as a function; the second component of the result is
the list of error-log messages emitted. -/
def SharedContextCredentials.tokenProvider
    (loadKey : Ctx → KeyConfig → VaultConfig → String → Except String String)
    (shared : KeyConfig) (vault : VaultConfig) (ctx : Ctx) :
    String × List String :=
  match loadKey ctx shared vault "secret" with
  | Except.error _ => ("", ["client: could not load secret key"])
  | Except.ok s => (s, [])

/-- The per-RPC credential option chosen by `ConnectContext` for a given
shared key config (the token-source selection rule of the source). -/
def credOption (shared : KeyConfig) : DialOption :=
  if 0 < shared.id.length ∨ 0 < shared.file.length ∨ 0 < shared.secret.length then
    DialOption.perRPCCredentials (Cred.SharedContextCredentials shared)
  else
    DialOption.perRPCCredentials Cred.ContextCredentials

/-- The tuning options appended by `ConnectContext`, in source order:
write buffer, read buffer, initial window, initial connection window,
max receive size, max send size, minimum connect timeout. -/
def tuningOpts (cfg : ClientConfig) : List DialOption :=
  (if 0 < cfg.writeBufferSize then [DialOption.writeBufferSize cfg.writeBufferSize] else [])
  ++ (if 0 < cfg.readBufferSize then [DialOption.readBufferSize cfg.readBufferSize] else [])
  ++ (if 0 < cfg.initialWindowSize then [DialOption.initialWindowSize cfg.initialWindowSize] else [])
  ++ (if 0 < cfg.initialConnWindowSize then [DialOption.initialConnWindowSize cfg.initialConnWindowSize] else [])
  ++ (if 0 < cfg.maxCallRecvMsgSize then [DialOption.maxCallRecvMsgSize cfg.maxCallRecvMsgSize] else [])
  ++ (if 0 < cfg.maxCallSendMsgSize then [DialOption.maxCallSendMsgSize cfg.maxCallSendMsgSize] else [])
  ++ (if 0 < cfg.minConnectTimeout then [DialOption.minConnectTimeout cfg.minConnectTimeout] else [])

/-- The effective user-agent: the override when non-empty, else
`version.Name ++ "/" ++ version.Version`. -/
def effectiveUA (cfg : ClientConfig) : String :=
  if 0 < cfg.userAgent.length then cfg.userAgent
  else version.Name ++ "/" ++ version.Version

/-- The context handed to the dial: the overall connect timeout applied
when positive, the incoming context unchanged otherwise. -/
def finalCtx (ctx : Ctx) (cfg : ClientConfig) : Ctx :=
  if 0 < cfg.connTimeout then Ctx.withTimeout ctx cfg.connTimeout else ctx

/-- The full option list of a successful bootstrap, given the single
transport-security option chosen: interceptors, security, per-call
credentials, tuning, block, user-agent. -/
def assembledOpts (cfg : ClientConfig) (secOpts : List DialOption) : List DialOption :=
  [DialOption.unaryInterceptor, DialOption.streamInterceptor]
  ++ secOpts
  ++ [credOption cfg.token.shared]
  ++ tuningOpts cfg
  ++ (if cfg.block then [DialOption.block] else [])
  ++ [DialOption.userAgent (effectiveUA cfg)]

/-- The options of a bootstrap result (empty on error, where no option
set is returned). -/
def optsOf : Except Err DialRequest → List DialOption
  | Except.ok req => req.opts
  | Except.error _ => []

lemma string_length_eq_zero_iff (s : String) : s.length = 0 ↔ s = "" := by
  constructor
  · intro h
    cases s with
    | mk data =>
      cases data with
      | nil => rfl
      | cons c cs => simp [String.length] at h
  · intro h
    subst h
    rfl

lemma ite_singleton {α : Type} {c : Prop} [Decidable c] (a b : α) :
    (if c then [a] else [b]) = [if c then a else b] := by
  split <;> rfl

/-- `ConnectContext` computed into its four outcome shapes. -/
lemma ConnectContext_eq (ctx : Ctx) (cfg : ClientConfig) (vault : VaultConfig)
    (r : Resolver) :
    ConnectContext ctx cfg vault r =
      if cfg.url = "" then
        (Except.error (Err.config "client: url required"), [])
      else if cfg.tls.enabled then
        match r cfg.tls vault with
        | Except.error e =>
            (Except.error (Err.wrap "client: failed to get client TLS config" e), [cfg.tls])
        | Except.ok t =>
            (Except.ok (DialRequest.mk (finalCtx ctx cfg) cfg.url
              (assembledOpts cfg [DialOption.transportCredentials t])), [cfg.tls])
      else
        (Except.ok (DialRequest.mk (finalCtx ctx cfg) cfg.url
          (assembledOpts cfg [DialOption.insecure])), []) := by
  unfold ConnectContext
  simp only [beq_iff_eq, string_length_eq_zero_iff]
  by_cases hurl : cfg.url = ""
  · simp [hurl]
  · by_cases htls : cfg.tls.enabled
    · simp only [hurl, htls, if_false, if_true, if_neg, ite_true, ite_false]
      cases r cfg.tls vault with
      | error e => simp [hurl]
      | ok t =>
          simp [hurl, assembledOpts, credOption, tuningOpts, effectiveUA, finalCtx,
            ite_singleton]
    · simp only [hurl, htls]
      simp [hurl, htls, assembledOpts, credOption, tuningOpts, effectiveUA, finalCtx,
        ite_singleton]

/-- A transport-security option: the two shapes the security step can
append. -/
def secLike (o : DialOption) : Prop :=
  o = DialOption.insecure ∨ ∃ t, o = DialOption.transportCredentials t

/-- Recognizer for per-RPC credential options. -/
def isPerRPCOpt : DialOption → Bool
  | DialOption.perRPCCredentials _ => true
  | _ => false

lemma credOption_is_perRPC (shared : KeyConfig) :
    ∃ c, credOption shared = DialOption.perRPCCredentials c := by
  unfold credOption
  split
  · exact ⟨_, rfl⟩
  · exact ⟨_, rfl⟩

lemma mem_ite_nil {α : Type} {c : Prop} [Decidable c] (x a : α) :
    (x ∈ if c then [a] else []) ↔ c ∧ x = a := by
  split
  · rename_i h
    simp [h]
  · rename_i h
    simp [h]

lemma countP_ite_nil {α : Type} {c : Prop} [Decidable c] (p : α → Bool) (l : List α) :
    (if c then l else []).countP p = if c then l.countP p else 0 := by
  split <;> rfl

/-- The write-buffer option appears in the assembled list exactly when the
configured value is positive, carrying exactly that value. -/
lemma mem_assembled_write {cfg : ClientConfig} {secOpt : DialOption}
    (hs : secLike secOpt) (n : Int) :
    DialOption.writeBufferSize n ∈ assembledOpts cfg [secOpt] ↔
      0 < cfg.writeBufferSize ∧ n = cfg.writeBufferSize := by
  obtain ⟨c, hc⟩ := credOption_is_perRPC cfg.token.shared
  rcases hs with h | ⟨t, h⟩ <;> subst h <;>
    simp [assembledOpts, tuningOpts, mem_ite_nil, hc]

/-- Same for the read-buffer option. -/
lemma mem_assembled_read {cfg : ClientConfig} {secOpt : DialOption}
    (hs : secLike secOpt) (n : Int) :
    DialOption.readBufferSize n ∈ assembledOpts cfg [secOpt] ↔
      0 < cfg.readBufferSize ∧ n = cfg.readBufferSize := by
  obtain ⟨c, hc⟩ := credOption_is_perRPC cfg.token.shared
  rcases hs with h | ⟨t, h⟩ <;> subst h <;>
    simp [assembledOpts, tuningOpts, mem_ite_nil, hc]

/-- Same for the initial-window option. -/
lemma mem_assembled_initialWindow {cfg : ClientConfig} {secOpt : DialOption}
    (hs : secLike secOpt) (n : Int) :
    DialOption.initialWindowSize n ∈ assembledOpts cfg [secOpt] ↔
      0 < cfg.initialWindowSize ∧ n = cfg.initialWindowSize := by
  obtain ⟨c, hc⟩ := credOption_is_perRPC cfg.token.shared
  rcases hs with h | ⟨t, h⟩ <;> subst h <;>
    simp [assembledOpts, tuningOpts, mem_ite_nil, hc]

/-- Same for the initial-connection-window option. -/
lemma mem_assembled_initialConnWindow {cfg : ClientConfig} {secOpt : DialOption}
    (hs : secLike secOpt) (n : Int) :
    DialOption.initialConnWindowSize n ∈ assembledOpts cfg [secOpt] ↔
      0 < cfg.initialConnWindowSize ∧ n = cfg.initialConnWindowSize := by
  obtain ⟨c, hc⟩ := credOption_is_perRPC cfg.token.shared
  rcases hs with h | ⟨t, h⟩ <;> subst h <;>
    simp [assembledOpts, tuningOpts, mem_ite_nil, hc]

/-- Same for the max-receive-message-size option. -/
lemma mem_assembled_maxRecv {cfg : ClientConfig} {secOpt : DialOption}
    (hs : secLike secOpt) (n : Int) :
    DialOption.maxCallRecvMsgSize n ∈ assembledOpts cfg [secOpt] ↔
      0 < cfg.maxCallRecvMsgSize ∧ n = cfg.maxCallRecvMsgSize := by
  obtain ⟨c, hc⟩ := credOption_is_perRPC cfg.token.shared
  rcases hs with h | ⟨t, h⟩ <;> subst h <;>
    simp [assembledOpts, tuningOpts, mem_ite_nil, hc]

/-- Same for the max-send-message-size option. -/
lemma mem_assembled_maxSend {cfg : ClientConfig} {secOpt : DialOption}
    (hs : secLike secOpt) (n : Int) :
    DialOption.maxCallSendMsgSize n ∈ assembledOpts cfg [secOpt] ↔
      0 < cfg.maxCallSendMsgSize ∧ n = cfg.maxCallSendMsgSize := by
  obtain ⟨c, hc⟩ := credOption_is_perRPC cfg.token.shared
  rcases hs with h | ⟨t, h⟩ <;> subst h <;>
    simp [assembledOpts, tuningOpts, mem_ite_nil, hc]

/-- Same for the minimum-connect-timeout option. -/
lemma mem_assembled_minConnect {cfg : ClientConfig} {secOpt : DialOption}
    (hs : secLike secOpt) (n : Int) :
    DialOption.minConnectTimeout n ∈ assembledOpts cfg [secOpt] ↔
      0 < cfg.minConnectTimeout ∧ n = cfg.minConnectTimeout := by
  obtain ⟨c, hc⟩ := credOption_is_perRPC cfg.token.shared
  rcases hs with h | ⟨t, h⟩ <;> subst h <;>
    simp [assembledOpts, tuningOpts, mem_ite_nil, hc]

/-- A user-agent option appears in the assembled list exactly for the
effective user-agent string. -/
lemma mem_assembled_userAgent {cfg : ClientConfig} {secOpt : DialOption}
    (hs : secLike secOpt) (s : String) :
    DialOption.userAgent s ∈ assembledOpts cfg [secOpt] ↔ s = effectiveUA cfg := by
  obtain ⟨c, hc⟩ := credOption_is_perRPC cfg.token.shared
  rcases hs with h | ⟨t, h⟩ <;> subst h <;>
    simp [assembledOpts, tuningOpts, mem_ite_nil, hc]

/-- The chosen per-RPC credential option is in the assembled list. -/
lemma mem_assembled_cred {cfg : ClientConfig} {secOpt : DialOption} :
    credOption cfg.token.shared ∈ assembledOpts cfg [secOpt] := by
  simp [assembledOpts]

/-- The chosen transport-security option is in the assembled list. -/
lemma mem_assembled_sec {cfg : ClientConfig} {secOpt : DialOption} :
    secOpt ∈ assembledOpts cfg [secOpt] := by
  simp [assembledOpts]

/-- The assembled list carries exactly one per-RPC credential option. -/
lemma countP_assembled_perRPC {cfg : ClientConfig} {secOpt : DialOption}
    (hs : secLike secOpt) :
    (assembledOpts cfg [secOpt]).countP isPerRPCOpt = 1 := by
  obtain ⟨c, hc⟩ := credOption_is_perRPC cfg.token.shared
  rcases hs with h | ⟨t, h⟩ <;> subst h <;>
    simp [assembledOpts, tuningOpts, List.countP_append, countP_ite_nil,
      List.countP_cons, hc, isPerRPCOpt]

/-- On an `ok` result the request has the assembled shape and the chosen
transport-security option. -/
lemma connect_ok_shape {ctx : Ctx} {cfg : ClientConfig} {vault : VaultConfig}
    {r : Resolver} {req : DialRequest}
    (h : (ConnectContext ctx cfg vault r).1 = Except.ok req) :
    ∃ secOpt : DialOption,
      ((secOpt = DialOption.insecure ∧ cfg.tls.enabled = false) ∨
        (∃ t, secOpt = DialOption.transportCredentials t ∧ cfg.tls.enabled = true ∧
          r cfg.tls vault = Except.ok t)) ∧
      req = DialRequest.mk (finalCtx ctx cfg) cfg.url (assembledOpts cfg [secOpt]) := by
  rw [ConnectContext_eq] at h
  by_cases hurl : cfg.url = ""
  · simp [hurl] at h
  · by_cases htls : cfg.tls.enabled
    · simp only [hurl, htls, ite_false, ite_true, if_neg, if_pos] at h
      cases hr : r cfg.tls vault with
      | error e =>
          rw [hr] at h
          simp at h
      | ok t =>
          rw [hr] at h
          simp at h
          exact ⟨_, Or.inr ⟨t, rfl, htls, rfl⟩, h.symm⟩
    · simp only [hurl, htls, ite_false, ite_true, if_neg, if_pos] at h
      simp at h
      exact ⟨_, Or.inl ⟨rfl, by simp [htls]⟩, h.symm⟩

/-- On an `ok` result: the option list is the assembled list around a
transport-security option. -/
lemma connect_ok_secLike {ctx : Ctx} {cfg : ClientConfig} {vault : VaultConfig}
    {r : Resolver} {req : DialRequest}
    (h : (ConnectContext ctx cfg vault r).1 = Except.ok req) :
    ∃ secOpt : DialOption, secLike secOpt ∧
      req = DialRequest.mk (finalCtx ctx cfg) cfg.url (assembledOpts cfg [secOpt]) := by
  obtain ⟨secOpt, hsec, hreq⟩ := connect_ok_shape h
  refine ⟨secOpt, ?_, hreq⟩
  rcases hsec with ⟨h1, _⟩ | ⟨t, h1, _, _⟩
  · exact Or.inl h1
  · exact Or.inr ⟨t, h1⟩

lemma string_length_pos_iff (s : String) : 0 < s.length ↔ s ≠ "" := by
  rw [Nat.pos_iff_ne_zero]
  exact not_congr (string_length_eq_zero_iff s)

/-- Demo vault configuration for concrete witnesses. -/
def vaultDemo : VaultConfig := VaultConfig.mk false ""

/-- Demo resolver that always produces material, for concrete witnesses. -/
def resolverDemo : Resolver := fun _ _ => Except.ok (TLSMaterial.mk "material")

/-- A configuration with an empty URL (and TLS enabled). -/
def cfgEmptyUrl : ClientConfig :=
  ClientConfig.mk "" (TLSConfig.mk true "cert") (TokenConfig.mk (KeyConfig.mk "" "" ""))
    0 0 0 0 0 0 0 false 0 ""

/-- A minimal valid configuration: TLS disabled, contextual token, no
tuning, no override. -/
def cfgPlain : ClientConfig :=
  ClientConfig.mk "svc:443" (TLSConfig.mk false "") (TokenConfig.mk (KeyConfig.mk "" "" ""))
    0 0 0 0 0 0 0 false 0 ""

/-- The dial request produced for `cfgPlain`. -/
def reqPlain : DialRequest :=
  DialRequest.mk Ctx.background "svc:443"
    [DialOption.unaryInterceptor, DialOption.streamInterceptor, DialOption.insecure,
      DialOption.perRPCCredentials Cred.ContextCredentials,
      DialOption.userAgent "orlop/0.0.0"]

/-- A valid configuration with TLS enabled. -/
def cfgTLS : ClientConfig :=
  ClientConfig.mk "svc:443" (TLSConfig.mk true "cert") (TokenConfig.mk (KeyConfig.mk "" "" ""))
    0 0 0 0 0 0 0 false 0 ""

/-- C1: for every configuration whose URL is empty, the bootstrap returns
the config error (`errors.New("client: url required")`, whose text carries
the claimed "url required"), invokes the resolver zero times, and yields
no dial request and no option set — the channel result is nil and no dial
is attempted. -/
theorem connectContext_empty_url_config_error
    (ctx : Ctx) (cfg : ClientConfig) (vault : VaultConfig) (r : Resolver)
    (h : cfg.url = "") :
    ConnectContext ctx cfg vault r =
      (Except.error (Err.config "client: url required"), []) := by
  rw [ConnectContext_eq, if_pos h]

theorem connectContext_empty_url_config_error_witness :
    ConnectContext Ctx.background cfgEmptyUrl vaultDemo resolverDemo =
      (Except.error (Err.config "client: url required"), []) :=
  connectContext_empty_url_config_error Ctx.background cfgEmptyUrl vaultDemo resolverDemo rfl

/-- C2: for every configuration with TLS disabled, the resolver is never
invoked, and any produced option set contains the explicit insecure
option. -/
theorem connectContext_tls_disabled_insecure
    (ctx : Ctx) (cfg : ClientConfig) (vault : VaultConfig) (r : Resolver)
    (req : DialRequest) (htls : cfg.tls.enabled = false) :
    (ConnectContext ctx cfg vault r).2 = [] ∧
    ((ConnectContext ctx cfg vault r).1 = Except.ok req →
      DialOption.insecure ∈ req.opts) := by
  constructor
  · rw [ConnectContext_eq]
    by_cases hurl : cfg.url = "" <;> simp [hurl, htls]
  · intro hok
    obtain ⟨secOpt, hsec, hreq⟩ := connect_ok_shape hok
    rcases hsec with ⟨rfl, _⟩ | ⟨t, rfl, henabled, _⟩
    · subst hreq
      exact mem_assembled_sec
    · rw [htls] at henabled
      cases henabled

theorem connectContext_tls_disabled_insecure_witness :
    (ConnectContext Ctx.background cfgPlain vaultDemo resolverDemo).2 = [] ∧
    ((ConnectContext Ctx.background cfgPlain vaultDemo resolverDemo).1 = Except.ok reqPlain →
      DialOption.insecure ∈ reqPlain.opts) :=
  connectContext_tls_disabled_insecure Ctx.background cfgPlain vaultDemo resolverDemo
    reqPlain rfl

/-- C3 counterexample: a configuration with the TLS flag true and an empty
URL, on which `ConnectContext` invokes the resolver zero times, not
exactly once — URL validation fails first. -/
theorem connectContext_resolver_skipped_on_empty_url :
    cfgEmptyUrl.tls.enabled = true ∧
    (ConnectContext Ctx.background cfgEmptyUrl vaultDemo resolverDemo).2 = [] :=
  ⟨rfl, rfl⟩

/-- C3 (amended): for every configuration with non-empty URL and the TLS
flag true, the resolver is invoked exactly once, with the TLS settings
from the config; on resolver error the bootstrap aborts with that error
wrapped as "client: failed to get client TLS config" (no dial request);
on success the TLS transport-credentials option is appended. -/
theorem connectContext_tls_enabled_resolver_once
    (ctx : Ctx) (cfg : ClientConfig) (vault : VaultConfig) (r : Resolver)
    (e : String) (t : TLSMaterial)
    (hurl : cfg.url ≠ "") (htls : cfg.tls.enabled = true) :
    (ConnectContext ctx cfg vault r).2 = [cfg.tls] ∧
    (r cfg.tls vault = Except.error e →
      (ConnectContext ctx cfg vault r).1 =
        Except.error (Err.wrap "client: failed to get client TLS config" e)) ∧
    (r cfg.tls vault = Except.ok t →
      (ConnectContext ctx cfg vault r).1.isOk = true ∧
      DialOption.transportCredentials t ∈ optsOf (ConnectContext ctx cfg vault r).1) := by
  rw [ConnectContext_eq, if_neg hurl, if_pos htls]
  cases hr : r cfg.tls vault with
  | error e2 =>
      refine ⟨rfl, fun he => ?_, fun ho => Except.noConfusion ho⟩
      injection he with h
      subst h
      rfl
  | ok t2 =>
      refine ⟨rfl, fun he => Except.noConfusion he, fun ho => ?_⟩
      injection ho with h
      subst h
      exact ⟨rfl, mem_assembled_sec⟩

theorem connectContext_tls_enabled_resolver_once_witness :
    (ConnectContext Ctx.background cfgTLS vaultDemo resolverDemo).2 = [cfgTLS.tls] ∧
    (resolverDemo cfgTLS.tls vaultDemo = Except.error "boom" →
      (ConnectContext Ctx.background cfgTLS vaultDemo resolverDemo).1 =
        Except.error (Err.wrap "client: failed to get client TLS config" "boom")) ∧
    (resolverDemo cfgTLS.tls vaultDemo = Except.ok (TLSMaterial.mk "material") →
      (ConnectContext Ctx.background cfgTLS vaultDemo resolverDemo).1.isOk = true ∧
      DialOption.transportCredentials (TLSMaterial.mk "material") ∈
        optsOf (ConnectContext Ctx.background cfgTLS vaultDemo resolverDemo).1) :=
  connectContext_tls_enabled_resolver_once Ctx.background cfgTLS vaultDemo resolverDemo
    "boom" (TLSMaterial.mk "material") (by decide) rfl

/-- C10: `Connect(cfg, vault)` behaves identically to
`ConnectContext(context.Background(), cfg, vault)`: same channel result
(dial request or error) and same resolver calls. -/
theorem connect_eq_connectContext_background
    (cfg : ClientConfig) (vault : VaultConfig) (r : Resolver) :
    Connect cfg vault r = ConnectContext Ctx.background cfg vault r := rfl

/-- A valid configuration with a shared token source, every tuning field
positive, block set, a connect timeout and a user-agent override. -/
def cfgTuned : ClientConfig :=
  ClientConfig.mk "svc:443" (TLSConfig.mk false "") (TokenConfig.mk (KeyConfig.mk "tok" "" ""))
    1 2 3 4 5 6 7 true 8 "my-agent"

/-- The dial request produced for `cfgTuned`. -/
def reqTuned : DialRequest :=
  DialRequest.mk (Ctx.withTimeout Ctx.background 8) "svc:443"
    [DialOption.unaryInterceptor, DialOption.streamInterceptor, DialOption.insecure,
      DialOption.perRPCCredentials (Cred.SharedContextCredentials (KeyConfig.mk "tok" "" "")),
      DialOption.writeBufferSize 1, DialOption.readBufferSize 2,
      DialOption.initialWindowSize 3, DialOption.initialConnWindowSize 4,
      DialOption.maxCallRecvMsgSize 5, DialOption.maxCallSendMsgSize 6,
      DialOption.minConnectTimeout 7, DialOption.block,
      DialOption.userAgent "my-agent"]

/-- C4: the credential-provider variant is a deterministic function of the
token source's three fields: exactly one per-RPC credential option is
attached to every produced option set; it is `ContextCredentials` when
id, file and secret are all empty, and `SharedContextCredentials` (with
the config's shared triple) when any is non-empty. -/
theorem connectContext_credential_selection
    (ctx : Ctx) (cfg : ClientConfig) (vault : VaultConfig) (r : Resolver)
    (req : DialRequest)
    (hok : (ConnectContext ctx cfg vault r).1 = Except.ok req) :
    req.opts.countP isPerRPCOpt = 1 ∧
    (cfg.token.shared.id = "" ∧ cfg.token.shared.file = "" ∧ cfg.token.shared.secret = "" →
      DialOption.perRPCCredentials Cred.ContextCredentials ∈ req.opts) ∧
    ((cfg.token.shared.id ≠ "" ∨ cfg.token.shared.file ≠ "" ∨ cfg.token.shared.secret ≠ "") →
      DialOption.perRPCCredentials (Cred.SharedContextCredentials cfg.token.shared) ∈ req.opts) := by
  obtain ⟨secOpt, hs, rfl⟩ := connect_ok_secLike hok
  refine ⟨countP_assembled_perRPC hs, fun hemp => ?_, fun hne => ?_⟩
  · have hcred : credOption cfg.token.shared =
        DialOption.perRPCCredentials Cred.ContextCredentials := by
      unfold credOption
      rw [if_neg]
      rintro (h | h | h) <;>
        simp [hemp.1, hemp.2.1, hemp.2.2] at h
    rw [← hcred]
    exact mem_assembled_cred
  · have hcred : credOption cfg.token.shared =
        DialOption.perRPCCredentials (Cred.SharedContextCredentials cfg.token.shared) := by
      unfold credOption
      rw [if_pos]
      rcases hne with h | h | h
      · exact Or.inl ((string_length_pos_iff _).mpr h)
      · exact Or.inr (Or.inl ((string_length_pos_iff _).mpr h))
      · exact Or.inr (Or.inr ((string_length_pos_iff _).mpr h))
    rw [← hcred]
    exact mem_assembled_cred

theorem connectContext_credential_selection_witness :
    reqPlain.opts.countP isPerRPCOpt = 1 ∧
    (cfgPlain.token.shared.id = "" ∧ cfgPlain.token.shared.file = "" ∧
        cfgPlain.token.shared.secret = "" →
      DialOption.perRPCCredentials Cred.ContextCredentials ∈ reqPlain.opts) ∧
    ((cfgPlain.token.shared.id ≠ "" ∨ cfgPlain.token.shared.file ≠ "" ∨
        cfgPlain.token.shared.secret ≠ "") →
      DialOption.perRPCCredentials (Cred.SharedContextCredentials cfgPlain.token.shared) ∈
        reqPlain.opts) :=
  connectContext_credential_selection Ctx.background cfgPlain vaultDemo resolverDemo
    reqPlain rfl

/-- C5: when the secret lookup fails, the shared-secret token fetch
returns the empty string and logs the error instead of failing; and the
bootstrap itself (which defers the fetch to call time) still succeeds, so
the dial is still attempted. -/
theorem tokenProvider_load_failure_not_fatal
    (loadKey : Ctx → KeyConfig → VaultConfig → String → Except String String)
    (shared : KeyConfig) (vault : VaultConfig) (ctx : Ctx) (e : String)
    (cfg : ClientConfig) (ctx2 : Ctx) (vault2 : VaultConfig) (r : Resolver)
    (hfail : loadKey ctx shared vault "secret" = Except.error e)
    (hurl : cfg.url ≠ "") (htls : cfg.tls.enabled = false)
    (hshared : cfg.token.shared.id ≠ "") :
    SharedContextCredentials.tokenProvider loadKey shared vault ctx =
      ("", ["client: could not load secret key"]) ∧
    (ConnectContext ctx2 cfg vault2 r).1.isOk = true := by
  constructor
  · unfold SharedContextCredentials.tokenProvider
    rw [hfail]
  · rw [ConnectContext_eq, if_neg hurl, if_neg (by simp [htls])]
    rfl

/-- Demo secret lookup that always fails. -/
def loadKeyFail : Ctx → KeyConfig → VaultConfig → String → Except String String :=
  fun _ _ _ _ => Except.error "vault unreachable"

theorem tokenProvider_load_failure_not_fatal_witness :
    SharedContextCredentials.tokenProvider loadKeyFail (KeyConfig.mk "tok" "" "")
        vaultDemo Ctx.background =
      ("", ["client: could not load secret key"]) ∧
    (ConnectContext Ctx.background cfgTuned vaultDemo resolverDemo).1.isOk = true :=
  tokenProvider_load_failure_not_fatal loadKeyFail (KeyConfig.mk "tok" "" "")
    vaultDemo Ctx.background "vault unreachable" cfgTuned Ctx.background vaultDemo
    resolverDemo rfl (by decide) rfl (by decide)

/-- C6: each tuning option is present in the produced option set exactly
when the configured value is strictly positive, and then carries exactly
the configured value; for zero or negative values it is absent. -/
theorem connectContext_tuning_opt_in
    (ctx : Ctx) (cfg : ClientConfig) (vault : VaultConfig) (r : Resolver)
    (req : DialRequest) (n : Int)
    (hok : (ConnectContext ctx cfg vault r).1 = Except.ok req) :
    (DialOption.writeBufferSize n ∈ req.opts ↔
      0 < cfg.writeBufferSize ∧ n = cfg.writeBufferSize) ∧
    (DialOption.readBufferSize n ∈ req.opts ↔
      0 < cfg.readBufferSize ∧ n = cfg.readBufferSize) ∧
    (DialOption.initialWindowSize n ∈ req.opts ↔
      0 < cfg.initialWindowSize ∧ n = cfg.initialWindowSize) ∧
    (DialOption.initialConnWindowSize n ∈ req.opts ↔
      0 < cfg.initialConnWindowSize ∧ n = cfg.initialConnWindowSize) ∧
    (DialOption.maxCallRecvMsgSize n ∈ req.opts ↔
      0 < cfg.maxCallRecvMsgSize ∧ n = cfg.maxCallRecvMsgSize) ∧
    (DialOption.maxCallSendMsgSize n ∈ req.opts ↔
      0 < cfg.maxCallSendMsgSize ∧ n = cfg.maxCallSendMsgSize) ∧
    (DialOption.minConnectTimeout n ∈ req.opts ↔
      0 < cfg.minConnectTimeout ∧ n = cfg.minConnectTimeout) := by
  obtain ⟨secOpt, hs, rfl⟩ := connect_ok_secLike hok
  exact ⟨mem_assembled_write hs n, mem_assembled_read hs n,
    mem_assembled_initialWindow hs n, mem_assembled_initialConnWindow hs n,
    mem_assembled_maxRecv hs n, mem_assembled_maxSend hs n,
    mem_assembled_minConnect hs n⟩

theorem connectContext_tuning_opt_in_witness :
    (DialOption.writeBufferSize 1 ∈ reqTuned.opts ↔
      0 < cfgTuned.writeBufferSize ∧ (1 : Int) = cfgTuned.writeBufferSize) ∧
    (DialOption.readBufferSize 1 ∈ reqTuned.opts ↔
      0 < cfgTuned.readBufferSize ∧ (1 : Int) = cfgTuned.readBufferSize) ∧
    (DialOption.initialWindowSize 1 ∈ reqTuned.opts ↔
      0 < cfgTuned.initialWindowSize ∧ (1 : Int) = cfgTuned.initialWindowSize) ∧
    (DialOption.initialConnWindowSize 1 ∈ reqTuned.opts ↔
      0 < cfgTuned.initialConnWindowSize ∧ (1 : Int) = cfgTuned.initialConnWindowSize) ∧
    (DialOption.maxCallRecvMsgSize 1 ∈ reqTuned.opts ↔
      0 < cfgTuned.maxCallRecvMsgSize ∧ (1 : Int) = cfgTuned.maxCallRecvMsgSize) ∧
    (DialOption.maxCallSendMsgSize 1 ∈ reqTuned.opts ↔
      0 < cfgTuned.maxCallSendMsgSize ∧ (1 : Int) = cfgTuned.maxCallSendMsgSize) ∧
    (DialOption.minConnectTimeout 1 ∈ reqTuned.opts ↔
      0 < cfgTuned.minConnectTimeout ∧ (1 : Int) = cfgTuned.minConnectTimeout) :=
  connectContext_tuning_opt_in Ctx.background cfgTuned vaultDemo resolverDemo reqTuned 1 rfl

/-- C7: a user-agent option is in the produced option set exactly for the
effective user-agent, which equals the configured override when non-empty
and `"orlop/0.0.0"` (`version.Name ++ "/" ++ version.Version`) when the
override is empty. -/
theorem connectContext_user_agent
    (ctx : Ctx) (cfg : ClientConfig) (vault : VaultConfig) (r : Resolver)
    (req : DialRequest) (s : String)
    (hok : (ConnectContext ctx cfg vault r).1 = Except.ok req) :
    (DialOption.userAgent s ∈ req.opts ↔ s = effectiveUA cfg) ∧
    (cfg.userAgent ≠ "" → effectiveUA cfg = cfg.userAgent) ∧
    (cfg.userAgent = "" → effectiveUA cfg = "orlop/0.0.0") := by
  obtain ⟨secOpt, hs, rfl⟩ := connect_ok_secLike hok
  refine ⟨mem_assembled_userAgent hs s, fun hne => ?_, fun hemp => ?_⟩
  · unfold effectiveUA
    rw [if_pos ((string_length_pos_iff _).mpr hne)]
  · unfold effectiveUA
    rw [if_neg]
    · rfl
    · rw [hemp]
      decide

theorem connectContext_user_agent_witness :
    (DialOption.userAgent "orlop/0.0.0" ∈ reqPlain.opts ↔
      "orlop/0.0.0" = effectiveUA cfgPlain) ∧
    (cfgPlain.userAgent ≠ "" → effectiveUA cfgPlain = cfgPlain.userAgent) ∧
    (cfgPlain.userAgent = "" → effectiveUA cfgPlain = "orlop/0.0.0") :=
  connectContext_user_agent Ctx.background cfgPlain vaultDemo resolverDemo
    reqPlain "orlop/0.0.0" rfl

/-- C8: when the overall connect timeout is positive the context handed to
the dial is the incoming context bounded by that timeout; when it is zero
or negative the context is passed through unchanged. -/
theorem connectContext_conn_timeout_ctx
    (ctx : Ctx) (cfg : ClientConfig) (vault : VaultConfig) (r : Resolver)
    (req : DialRequest)
    (hok : (ConnectContext ctx cfg vault r).1 = Except.ok req) :
    (0 < cfg.connTimeout → req.ctx = Ctx.withTimeout ctx cfg.connTimeout) ∧
    (cfg.connTimeout ≤ 0 → req.ctx = ctx) := by
  obtain ⟨secOpt, hs, rfl⟩ := connect_ok_secLike hok
  constructor
  · intro hpos
    simp [finalCtx, hpos]
  · intro hnp
    simp [finalCtx, not_lt.mpr hnp]

theorem connectContext_conn_timeout_ctx_witness :
    (0 < cfgTuned.connTimeout →
      reqTuned.ctx = Ctx.withTimeout Ctx.background cfgTuned.connTimeout) ∧
    (cfgTuned.connTimeout ≤ 0 → reqTuned.ctx = Ctx.background) :=
  connectContext_conn_timeout_ctx Ctx.background cfgTuned vaultDemo resolverDemo reqTuned rfl

/-- C9: the bootstrap is a deterministic function of the configuration and
the resolver's behaviour (equal resolvers give an identical result, calls
included), and every produced option list has the fixed order:
interceptors, transport security, per-call credentials, tuning options in
source order, block, user-agent last. -/
theorem connectContext_deterministic_ordered
    (ctx : Ctx) (cfg : ClientConfig) (vault : VaultConfig) (r r2 : Resolver)
    (req : DialRequest)
    (hext : ∀ t v, r t v = r2 t v)
    (hok : (ConnectContext ctx cfg vault r).1 = Except.ok req) :
    ConnectContext ctx cfg vault r = ConnectContext ctx cfg vault r2 ∧
    ∃ secOpt, secLike secOpt ∧
      req.opts =
        [DialOption.unaryInterceptor, DialOption.streamInterceptor]
        ++ [secOpt]
        ++ [credOption cfg.token.shared]
        ++ tuningOpts cfg
        ++ (if cfg.block then [DialOption.block] else [])
        ++ [DialOption.userAgent (effectiveUA cfg)] := by
  constructor
  · have h2 : r = r2 := funext fun t => funext fun v => hext t v
    rw [h2]
  · obtain ⟨secOpt, hs, rfl⟩ := connect_ok_secLike hok
    exact ⟨secOpt, hs, rfl⟩

theorem connectContext_deterministic_ordered_witness :
    ConnectContext Ctx.background cfgTuned vaultDemo resolverDemo =
      ConnectContext Ctx.background cfgTuned vaultDemo resolverDemo ∧
    ∃ secOpt, secLike secOpt ∧
      reqTuned.opts =
        [DialOption.unaryInterceptor, DialOption.streamInterceptor]
        ++ [secOpt]
        ++ [credOption cfgTuned.token.shared]
        ++ tuningOpts cfgTuned
        ++ (if cfgTuned.block then [DialOption.block] else [])
        ++ [DialOption.userAgent (effectiveUA cfgTuned)] :=
  connectContext_deterministic_ordered Ctx.background cfgTuned vaultDemo resolverDemo
    resolverDemo reqTuned (fun _ _ => rfl) rfl
